import Mathlib

/-!
# SmartPlaylistSearchTermWidget

A shallow embedding of `src/smartplaylists/smartplaylistsearchtermwidget.cpp`
(Clementine): the search-term editor row and the overlay drawn over it while the
row is inactive.

Conventions of the embedding.

* Widget members keep their C++ names (`overlay_`, `active_`, `animation_`, `ui_`).
  A nullable pointer is an `Option`; `delete p; p = NULL;` stores `none`.
* `float` and `qreal` values (opacities) are rationals.  Every constant the code uses
  (`0.0`, `0.25`, `1.0`) is a dyadic rational, so it is represented exactly.
* `int` values are `Int`.  Widget sizes and font metrics stay far inside the 32-bit
  range, where `int` arithmetic agrees with `Int`; C++ `/` truncates toward zero and
  is `Int.tdiv`.
* `QRect` follows Qt: a rectangle is stored by its two corner pixels, so
  `right() = left() + width() - 1`.
* A handler that dereferences a null pointer returns `none`.
-/

set_option linter.dupNamespace false

namespace SmartPlaylistSearchTerm

/-- The enum `SmartPlaylistSearchTerm::Type`, with the five enumerators the
switch of `FieldChanged` lists. -/
inductive TermType where
  | Type_Time
  | Type_Number
  | Type_Date
  | Type_Rating
  | Type_Text
deriving DecidableEq, Repr

/-- A value of the enum `SmartPlaylistSearchTerm::Field`, held as its integer:
`FieldChanged` obtains it by casting an `int`. -/
abbrev Field := Int

/-- A value of the enum `SmartPlaylistSearchTerm::Operator`, held as its integer. -/
abbrev Operator := Int

end SmartPlaylistSearchTerm

namespace Playlist

/-- A value of the enum `Playlist::Column`, held as its integer. -/
abbrev Column := Int

end Playlist

open SmartPlaylistSearchTerm

/-- The declarations of `smartplaylistsearchterm.h` and `playlist/playlist.h` that the
widget uses.  Their definitions live in other files, so the model takes them as
parameters: the two field enumerators named by `FieldChanged`, the static lookups
`TypeOf`, `OperatorsForType` and `OperatorText`, and the two playlist columns. -/
structure Decls where
  Field_Artist : Field
  Field_Album : Field
  TypeOf : Field → TermType
  OperatorsForType : TermType → List Operator
  OperatorText : TermType → Operator → String
  Column_Artist : Playlist.Column
  Column_Album : Playlist.Column

/-! ## Qt value types -/

/-- Qt's `QRect`: the coordinates of the top-left and of the bottom-right pixel. -/
structure QRect where
  x1 : Int
  y1 : Int
  x2 : Int
  y2 : Int
deriving DecidableEq, Repr

namespace QRect

/-- `QRect(const QPoint& topLeft, const QSize& size)` and `QRect(x, y, w, h)`:
the second corner is `x + w - 1`, `y + h - 1`. -/
def ofSize (x y w h : Int) : QRect := ⟨x, y, x + w - 1, y + h - 1⟩

def left (r : QRect) : Int := r.x1
def top (r : QRect) : Int := r.y1
def right (r : QRect) : Int := r.x2
def bottom (r : QRect) : Int := r.y2
def width (r : QRect) : Int := r.x2 - r.x1 + 1
def height (r : QRect) : Int := r.y2 - r.y1 + 1

end QRect

/-- The `qMax` of two ints. -/
def qMax (a b : Int) : Int := if a < b then b else a

/-- A `QVariant` that is either invalid or holds an int. -/
abbrev QVariant := Option Int

/-- `QVariant::toInt()`: an invalid variant converts to 0. -/
def QVariant.toInt : QVariant → Int
  | some v => v
  | none => 0

/-- A `QComboBox`: its rows in order, each a label with its item data. -/
abbrev QComboBox := List (String × QVariant)

namespace QComboBox

/-- `QComboBox::clear()`. -/
def clear (_c : QComboBox) : QComboBox := []

/-- `QComboBox::addItem(text)`: appends a row without item data. -/
def addItem (c : QComboBox) (text : String) : QComboBox := c ++ [(text, none)]

/-- `QComboBox::itemData(index)`: the data of the row, invalid when there is no such row. -/
def itemData (c : QComboBox) (index : Int) : QVariant :=
  if 0 ≤ index then
    match c.get? index.toNat with
    | some row => row.2
    | none => none
  else none

/-- The labels of the rows, in order. -/
def texts (c : QComboBox) : List String := c.map Prod.fst

end QComboBox

/-! ## The widget state -/

namespace SmartPlaylistSearchTermWidget

/-- The pages of `ui_->value_stack`. -/
inductive Page where
  | page_time
  | page_number
  | page_date
  | page_text
deriving DecidableEq, Repr

/-- The part of `Ui_SmartPlaylistSearchTermWidget` the handlers touch.
`value_stack` is the current page (`none` when the stack shows nothing) and
`value_text` is the column of the completer installed on the line edit, if any. -/
structure Ui where
  field : QComboBox
  op : QComboBox
  value_stack : Option Page
  value_text : Option Playlist.Column
deriving DecidableEq, Repr

/-- The members of `SmartPlaylistSearchTermWidget::Overlay` that change after
construction: the opacity, and whether `pixmap_` holds a snapshot. -/
structure Overlay where
  opacity_ : ℚ
  pixmap_ : Bool
deriving DecidableEq, Repr

/-- The state of the `QPropertyAnimation` on `overlay_opacity`: whether it is running,
the time in ms elapsed in the current run, the end value and the duration. -/
structure Animation where
  running : Bool
  currentTime : Int
  endValue : Option ℚ
  duration : Int
deriving DecidableEq, Repr

/-- The editor row.  `pendingGrab` counts the zero-delay single-shot timers that have been
started on the `Grab()` slot and have not fired yet. -/
structure Widget where
  ui_ : Ui
  overlay_ : Option Overlay
  animation_ : Animation
  active_ : Bool
  pendingGrab : Nat
deriving DecidableEq, Repr

namespace Overlay

def kSpacing : Int := 6
def kIconSize : Int := 22

/-- The label `text_` of the overlay. -/
def text_ : String := "Add search term"

/-- `Overlay::Overlay(parent)`: opacity 0.0 and no snapshot yet. -/
def Overlay : Overlay := ⟨0, false⟩

/-- `Overlay::opacity()`. -/
def opacity (o : SmartPlaylistSearchTermWidget.Overlay) : ℚ := o.opacity_

/-- `Overlay::SetOpacity(opacity)`: stores the argument (and asks for a repaint). -/
def SetOpacity (o : SmartPlaylistSearchTermWidget.Overlay) (opacity : ℚ) :
    SmartPlaylistSearchTermWidget.Overlay :=
  { o with opacity_ := opacity }

/-- `Overlay::Grab()`: caches a blurred snapshot of the parent and shows the overlay. -/
def Grab (o : SmartPlaylistSearchTermWidget.Overlay) : SmartPlaylistSearchTermWidget.Overlay :=
  { o with pixmap_ := true }

end Overlay

/-- A `QPropertyAnimation` as constructed: stopped at time 0, no end value, Qt's default
duration of 250 ms. -/
def Animation.init : Animation := ⟨false, 0, none, 250⟩

namespace Animation

/-- `QAbstractAnimation::stop()`: the state becomes Stopped; the current time is kept. -/
def stop (a : Animation) : Animation := { a with running := false }

/-- `QVariantAnimation::setEndValue(v)`. -/
def setEndValue (a : Animation) (v : ℚ) : Animation := { a with endValue := some v }

/-- `QVariantAnimation::setDuration(msecs)`. -/
def setDuration (a : Animation) (msecs : Int) : Animation := { a with duration := msecs }

/-- `QAbstractAnimation::start()`: does nothing on a running animation; a stopped one is
rewound to time 0 and set running. -/
def start (a : Animation) : Animation :=
  if a.running then a else { a with running := true, currentTime := 0 }

end Animation

/-- The constructor, lines 61-68: no overlay, a fresh animation, active.  The body only
fills the combo boxes and the style sheet; the resulting `ui_` is the argument. -/
def SmartPlaylistSearchTermWidget (ui : Ui) : Widget :=
  { ui_ := ui, overlay_ := none, animation_ := Animation.init, active_ := true,
    pendingGrab := 0 }

/-- `SetActive(active)`, lines 135-143. -/
def SetActive (w : Widget) (active : Bool) : Widget :=
  let w1 := { w with active_ := active }
  -- delete overlay_; overlay_ = NULL;
  let w2 := { w1 with overlay_ := none }
  if !active then { w2 with overlay_ := some Overlay.Overlay } else w2

/-- The switch of lines 110-117: the value-editor page for a type.  Every enumerator has
a case, so the initial `page = NULL` is always overwritten. -/
def pageFor (type : TermType) : Option Page :=
  match type with
  | .Type_Time => some .page_time
  | .Type_Number => some .page_number
  | .Type_Date => some .page_date
  | .Type_Rating => some .page_number
  | .Type_Text => some .page_text

/-- `QStackedWidget::setCurrentWidget(page)`: a null page leaves the current page as it is. -/
def setCurrentWidget (current : Option Page) (page : Option Page) : Option Page :=
  match page with
  | some p => some p
  | none => current

/-- Modelled from the spec: the constructor `TagCompleter(library, column, editor)` of
`playlist/playlistdelegates.cpp`, which is not among the sources.  Following the spec it
attaches to the editor an autocomplete helper scoped to that column of the media library,
replacing the helper the editor had. -/
def TagCompleter (column : Playlist.Column) (_editor : Option Playlist.Column) :
    Option Playlist.Column :=
  some column

/-- `QLineEdit::setCompleter(c)`: installs `c`, and removes the completer when `c` is null. -/
def setCompleter (_editor : Option Playlist.Column) (c : Option Playlist.Column) :
    Option Playlist.Column :=
  c

/-- Lines 99-100: the field stored as item data of the selected row. -/
def selectedField (w : Widget) (index : Int) : Field :=
  QVariant.toInt (w.ui_.field.itemData index)

/-- `FieldChanged(index)`, lines 98-133. -/
def FieldChanged (d : Decls) (w : Widget) (index : Int) : Widget :=
  let field : Field := selectedField w index
  let type := d.TypeOf field
  -- Populate the operator combo box
  let op := (d.OperatorsForType type).foldl
    (fun combo o => combo.addItem (d.OperatorText type o)) w.ui_.op.clear
  -- Show the correct value editor
  let value_stack := setCurrentWidget w.ui_.value_stack (pageFor type)
  -- Maybe set a tag completer
  let value_text :=
    if field = d.Field_Artist then TagCompleter d.Column_Artist w.ui_.value_text
    else if field = d.Field_Album then TagCompleter d.Column_Album w.ui_.value_text
    else setCompleter w.ui_.value_text none
  { w with ui_ := { w.ui_ with op := op, value_stack := value_stack, value_text := value_text } }

/-- `enterEvent`, lines 145-153. -/
def enterEvent (w : Widget) : Widget :=
  match w.overlay_ with
  | none => w
  | some _ =>
    { w with animation_ := (((w.animation_.stop).setEndValue 1).setDuration 80).start }

/-- `leaveEvent`, lines 155-163. -/
def leaveEvent (w : Widget) : Widget :=
  match w.overlay_ with
  | none => w
  | some _ =>
    { w with animation_ := (((w.animation_.stop).setEndValue 0).setDuration 160).start }

/-- `QTimer::singleShot(0, this, SLOT(Grab()))`: one more callback waits to fire. -/
def singleShotGrab (w : Widget) : Widget := { w with pendingGrab := w.pendingGrab + 1 }

/-- `resizeEvent`, lines 165-170.  `overlayVisible` is what `overlay_->isVisible()` answers;
visibility is decided by the windowing system, so it comes with the event. -/
def resizeEvent (w : Widget) (overlayVisible : Bool) : Widget :=
  match w.overlay_ with
  | some _ => if overlayVisible then singleShotGrab w else w
  | none => w

/-- `showEvent`, lines 172-177. -/
def showEvent (w : Widget) : Widget :=
  match w.overlay_ with
  | some _ => singleShotGrab w
  | none => w

/-- `Grab()`, lines 179-181: `overlay_->Grab()` with no null check; `none` is the
dereference of a null `overlay_`. -/
def Grab (w : Widget) : Option Widget :=
  match w.overlay_ with
  | some o => some { w with overlay_ := some o.Grab }
  | none => none

/-- `set_overlay_opacity(opacity)`, lines 183-186. -/
def set_overlay_opacity (w : Widget) (opacity : ℚ) : Widget :=
  match w.overlay_ with
  | some o => { w with overlay_ := some (o.SetOpacity opacity) }
  | none => w

/-- `overlay_opacity()`, lines 188-190. -/
def overlay_opacity (w : Widget) : ℚ :=
  match w.overlay_ with
  | some o => o.opacity
  | none => 0

/-! ## The overlay's render step -/

namespace Overlay

/-- What the painter is asked to draw. -/
inductive Draw where
  | fillRect (r : QRect)
  | drawSnapshot (x y : Int)
  | drawIcon (r : QRect)
  | drawText (r : QRect) (text : String)
deriving DecidableEq, Repr

/-- A `QPainter`: the opacity set on it and the drawing calls made so far, each with the
opacity in force when it was made. -/
structure QPainter where
  opacity : ℚ
  calls : List (ℚ × Draw)
deriving DecidableEq, Repr

/-- A painter as constructed: opacity 1.0, nothing drawn. -/
def QPainter.begin : QPainter := ⟨1, []⟩

/-- `QPainter::setOpacity(v)`, recording the value passed. -/
def QPainter.setOpacity (p : QPainter) (v : ℚ) : QPainter := { p with opacity := v }

/-- Any drawing call. -/
def QPainter.draw (p : QPainter) (c : Draw) : QPainter :=
  { p with calls := p.calls ++ [(p.opacity, c)] }

/-- The opacity handed to the painter for the blurred snapshot, line 239. -/
def snapshotOpacity (o : SmartPlaylistSearchTermWidget.Overlay) : ℚ :=
  0.25 + o.opacity_ * 0.25

/-- The three rectangles computed in lines 242-251. -/
structure Geometry where
  contents : QRect
  icon : QRect
  text : QRect
deriving DecidableEq, Repr

/-- Lines 242-251.  `width`, `height` are the overlay's size; `textWidth` is
`fontMetrics().width(text_)` and `fontHeight` is `fontMetrics().height()`. -/
def geometry (width height textWidth fontHeight : Int) : Geometry :=
  let contents_w := kIconSize + kSpacing + textWidth
  let contents_h := qMax kIconSize fontHeight
  let contents := QRect.ofSize ((width - contents_w).tdiv 2) ((height - contents_h).tdiv 2)
    contents_w contents_h
  let icon := QRect.ofSize contents.left contents.top kIconSize kIconSize
  let text := QRect.ofSize (icon.right + kSpacing) icon.top
    (contents.width - kSpacing - kIconSize) contents.height
  ⟨contents, icon, text⟩

/-- `Overlay::paintEvent`, lines 232-257. -/
def paintEvent (o : SmartPlaylistSearchTermWidget.Overlay)
    (width height textWidth fontHeight : Int) : QPainter :=
  let p := QPainter.begin
  -- Background
  let p := p.draw (.fillRect (QRect.ofSize 0 0 width height))
  -- Blurred parent widget
  let p := p.setOpacity (snapshotOpacity o)
  let p := p.draw (.drawSnapshot 0 0)
  -- Geometry
  let g := geometry width height textWidth fontHeight
  -- Icon and text
  let p := p.setOpacity 1
  let p := p.draw (.drawIcon g.icon)
  p.draw (.drawText g.text text_)

end Overlay

/-! ## The event model -/

/-- The events that reach the editor row in the model of the deferred snapshot: a call
of `SetActive`, a show event, a resize event (with the overlay's visibility at that
moment), and the firing of a zero-delay timer started earlier. -/
inductive Event where
  | setActive (b : Bool)
  | show
  | resize (overlayVisible : Bool)
  | fireGrab
deriving DecidableEq, Repr

/-- One event.  A timer can fire only if one is pending; firing runs the `Grab()` slot,
which fails on a null `overlay_`. -/
def step (w : Widget) : Event → Option Widget
  | .setActive b => some (SetActive w b)
  | .show => some (showEvent w)
  | .resize v => some (resizeEvent w v)
  | .fireGrab =>
    if w.pendingGrab = 0 then some w
    else Grab { w with pendingGrab := w.pendingGrab - 1 }

/-- A sequence of events, stopping at the first failure. -/
def run (w : Widget) : List Event → Option Widget
  | [] => some w
  | e :: es =>
    match step w e with
    | some w1 => run w1 es
    | none => none

/-- The hover events of the animation contract. -/
inductive Hover where
  | enter
  | leave
deriving DecidableEq, Repr

/-- The handler of a hover event. -/
def hover (w : Widget) : Hover → Widget
  | .enter => enterEvent w
  | .leave => leaveEvent w

/-- The animation state a hover event sets up: running, with the end value and the
duration of lines 150-151 and 160-161. -/
def hoverAnimation : Hover → Animation
  | .enter => ⟨true, 0, some 1, 80⟩
  | .leave => ⟨true, 0, some 0, 160⟩

end SmartPlaylistSearchTermWidget

/-! ## Sample data -/

namespace Sample

/-- Sample declarations: fields Title = 0, Artist = 1, Album = 2, Length = 3; Length is a
time, the rest text. -/
def decls : Decls :=
  { Field_Artist := 1
    Field_Album := 2
    TypeOf := fun f => if f = 3 then .Type_Time else .Type_Text
    OperatorsForType := fun t =>
      match t with
      | .Type_Text => [0, 1, 2]
      | _ => [1, 3, 4]
    OperatorText := fun t o =>
      match t with
      | .Type_Text => if o = 0 then "contains" else if o = 1 then "equals" else "starts with"
      | _ => if o = 1 then "equals" else if o = 3 then "greater than" else "less than"
    Column_Artist := 1
    Column_Album := 2 }

/-- A sample form: the field combo sorted by label, a stale operator list, an Artist
completer installed. -/
def ui : SmartPlaylistSearchTermWidget.Ui :=
  { field := [("Album", some 2), ("Artist", some 1), ("Length", some 3), ("Title", some 0)]
    op := [("stale", none)]
    value_stack := none
    value_text := some 1 }

/-- A sample inactive row. -/
def inactive : SmartPlaylistSearchTermWidget.Widget :=
  SmartPlaylistSearchTermWidget.SetActive
    (SmartPlaylistSearchTermWidget.SmartPlaylistSearchTermWidget ui) false

/-- The sample inactive row 50 ms into the fade started by a pointer-enter. -/
def midFade : SmartPlaylistSearchTermWidget.Widget :=
  { inactive with animation_ := ⟨true, 50, some 1, 80⟩ }

end Sample

/-! ## Properties -/

namespace SmartPlaylistSearchTermWidget

/-! ### Helper lemmas -/

theorem foldl_addItem {α : Type} (f : α → String) (xs : List α) (c : QComboBox) :
    xs.foldl (fun combo o => QComboBox.addItem combo (f o)) c
      = c ++ xs.map (fun o => (f o, (none : QVariant))) := by
  induction xs generalizing c with
  | nil => simp
  | cons x xs ih =>
    rw [List.foldl_cons, ih]
    simp [QComboBox.addItem]

theorem FieldChanged_op (d : Decls) (w : Widget) (index : Int) :
    (FieldChanged d w index).ui_.op
      = (d.OperatorsForType (d.TypeOf (selectedField w index))).map
          (fun o => (d.OperatorText (d.TypeOf (selectedField w index)) o, (none : QVariant))) := by
  simp [FieldChanged, foldl_addItem, QComboBox.clear]

theorem FieldChanged_field (d : Decls) (w : Widget) (index : Int) :
    (FieldChanged d w index).ui_.field = w.ui_.field := by
  simp [FieldChanged]

theorem SetActive_overlay (w : Widget) (b : Bool) :
    (SetActive w b).overlay_ = if b then none else some Overlay.Overlay := by
  cases b <;> simp [SetActive]

theorem SetActive_active (w : Widget) (b : Bool) : (SetActive w b).active_ = b := by
  cases b <;> simp [SetActive]

theorem foldl_SetActive_inv (bs : List Bool) (w : Widget)
    (h : w.overlay_.isSome = true ↔ w.active_ = false) :
    (bs.foldl SetActive w).overlay_.isSome = true ↔ (bs.foldl SetActive w).active_ = false := by
  induction bs generalizing w with
  | nil => simpa using h
  | cons b bs ih =>
    rw [List.foldl_cons]
    apply ih
    rw [SetActive_overlay, SetActive_active]
    cases b <;> simp

theorem hover_overlay (w : Widget) (e : Hover) : (hover w e).overlay_ = w.overlay_ := by
  rcases w with ⟨ui, ov, an, ac, pg⟩
  cases e <;> cases ov <;> rfl

theorem foldl_hover_overlay (es : List Hover) (w : Widget) :
    (es.foldl hover w).overlay_ = w.overlay_ := by
  induction es generalizing w with
  | nil => rfl
  | cons e es ih => rw [List.foldl_cons, ih, hover_overlay]

theorem start_of_running (a : Animation) (h : a.running = true) : a.start = a := by
  simp [Animation.start, h]

theorem start_of_stopped (a : Animation) :
    (a.stop).start = { a with running := true, currentTime := 0 } := by
  simp [Animation.start, Animation.stop]

theorem hover_animation (w : Widget) (e : Hover) (h : w.overlay_.isSome = true) :
    (hover w e).animation_ = hoverAnimation e := by
  cases hw : w.overlay_ with
  | none => simp [hw] at h
  | some o =>
    cases e <;>
      simp [hover, enterEvent, leaveEvent, hw, hoverAnimation, Animation.stop,
        Animation.setEndValue, Animation.setDuration, Animation.start]

/-! ### The active flag and the overlay -/

/-- C1: the constructed editor is active with no overlay; after `SetActive(b)`, from any
prior state, the active flag is `b` and the overlay is present exactly when `b` is false:
the newly constructed overlay when `b` is false, none when `b` is true.  Hence
`SetActive(false)` followed by `SetActive(true)` leaves no overlay, and in every state
reached from the constructed editor by a sequence of `SetActive` calls the overlay is
present iff the editor is inactive. -/
theorem C1_SetActive_overlay_iff_inactive :
    (∀ ui : Ui, (SmartPlaylistSearchTermWidget ui).active_ = true
      ∧ (SmartPlaylistSearchTermWidget ui).overlay_ = none)
    ∧ (∀ (w : Widget) (b : Bool), (SetActive w b).active_ = b
      ∧ ((SetActive w b).overlay_.isSome = true ↔ b = false)
      ∧ (SetActive w b).overlay_ = if b then none else some Overlay.Overlay)
    ∧ (∀ w : Widget, (SetActive (SetActive w false) true).overlay_ = none)
    ∧ (∀ w : Widget, (SetActive w false).overlay_ = some Overlay.Overlay)
    ∧ (∀ (ui : Ui) (bs : List Bool),
        ((bs.foldl SetActive (SmartPlaylistSearchTermWidget ui)).overlay_.isSome = true
          ↔ (bs.foldl SetActive (SmartPlaylistSearchTermWidget ui)).active_ = false)) := by
  refine ⟨fun ui => ⟨rfl, rfl⟩, fun w b => ⟨SetActive_active w b, ?_, SetActive_overlay w b⟩,
    fun w => ?_, fun w => ?_, fun ui bs => ?_⟩
  · rw [SetActive_overlay]
    cases b <;> simp
  · rw [SetActive_overlay]
    rfl
  · rw [SetActive_overlay]
    rfl
  · apply foldl_SetActive_inv
    simp [SmartPlaylistSearchTermWidget]

/-! ### The field-change handler -/

/-- C2: after `FieldChanged(index)`, whatever the operator selector held before, it holds
exactly the rows `OperatorText(type, op)` for `op` in `OperatorsForType(type)`, in that
order and with that length, where `type = TypeOf(field)` and `field` is the item data of
row `index` of the field selector.  The result does not depend on the prior operator
list, and running the handler twice with the same index gives the same list as once. -/
theorem C2_FieldChanged_operator_list (d : Decls) (w : Widget) (index : Int) :
    (FieldChanged d w index).ui_.op
        = (d.OperatorsForType (d.TypeOf (selectedField w index))).map
            (fun o => (d.OperatorText (d.TypeOf (selectedField w index)) o, (none : QVariant)))
    ∧ (FieldChanged d w index).ui_.op.texts
        = (d.OperatorsForType (d.TypeOf (selectedField w index))).map
            (d.OperatorText (d.TypeOf (selectedField w index)))
    ∧ (FieldChanged d w index).ui_.op.length
        = (d.OperatorsForType (d.TypeOf (selectedField w index))).length
    ∧ (∀ prior : QComboBox,
        (FieldChanged d { w with ui_ := { w.ui_ with op := prior } } index).ui_.op
          = (FieldChanged d w index).ui_.op)
    ∧ (FieldChanged d (FieldChanged d w index) index).ui_.op
        = (FieldChanged d w index).ui_.op := by
  refine ⟨FieldChanged_op d w index, ?_, ?_, fun prior => ?_, ?_⟩
  · rw [FieldChanged_op]
    simp [QComboBox.texts, List.map_map, Function.comp_def]
  · rw [FieldChanged_op]
    simp
  · rw [FieldChanged_op, FieldChanged_op]
    rfl
  · rw [FieldChanged_op, FieldChanged_op]
    simp [selectedField, FieldChanged_field]

/-- C3: the page shown by `FieldChanged` is a total function of the type of the selected
field: Time gives the time page, Number the number page, Date the date page, Rating the
number page and Text the text page; for each of the five types the page is defined. -/
theorem C3_FieldChanged_page (d : Decls) (w : Widget) (index : Int) :
    (FieldChanged d w index).ui_.value_stack = pageFor (d.TypeOf (selectedField w index))
    ∧ pageFor .Type_Time = some .page_time
    ∧ pageFor .Type_Number = some .page_number
    ∧ pageFor .Type_Date = some .page_date
    ∧ pageFor .Type_Rating = some .page_number
    ∧ pageFor .Type_Text = some .page_text
    ∧ (∀ t : TermType, (pageFor t).isSome = true) := by
  refine ⟨?_, rfl, rfl, rfl, rfl, rfl, fun t => ?_⟩
  · cases h : d.TypeOf (selectedField w index) <;>
      simp [FieldChanged, h, pageFor, setCurrentWidget]
  · cases t <;> rfl

/-- C4: after `FieldChanged`, whatever completer the text editor had before, it has the
completer of the Artist column iff the selected field is Artist, the completer of the
Album column iff the field is Album, and no completer iff the field is neither.  The two
field enumerators are distinct (they are labels of one switch) and so are the two
columns. -/
theorem C4_FieldChanged_completer (d : Decls) (hField : d.Field_Artist ≠ d.Field_Album)
    (hColumn : d.Column_Artist ≠ d.Column_Album) (w : Widget) (index : Int) :
    ((FieldChanged d w index).ui_.value_text = some d.Column_Artist
        ↔ selectedField w index = d.Field_Artist)
    ∧ ((FieldChanged d w index).ui_.value_text = some d.Column_Album
        ↔ selectedField w index = d.Field_Album)
    ∧ ((FieldChanged d w index).ui_.value_text = none
        ↔ (selectedField w index ≠ d.Field_Artist ∧ selectedField w index ≠ d.Field_Album)) := by
  by_cases h1 : selectedField w index = d.Field_Artist
  · have h2 : selectedField w index ≠ d.Field_Album := fun h => hField (h1 ▸ h)
    simp [FieldChanged, TagCompleter, h1, hField, hColumn]
  · by_cases h2 : selectedField w index = d.Field_Album
    · simp [FieldChanged, TagCompleter, h2, Ne.symm hField, Ne.symm hColumn]
    · simp [FieldChanged, setCompleter, h1, h2]

/-- Witness of C4: in the sample form an Artist completer is installed; selecting row 2
(Length) removes it, and selecting row 0 (Album) installs the Album completer. -/
theorem C4_FieldChanged_completer_witness :
    Sample.decls.Field_Artist ≠ Sample.decls.Field_Album
    ∧ Sample.decls.Column_Artist ≠ Sample.decls.Column_Album
    ∧ (SmartPlaylistSearchTermWidget Sample.ui).ui_.value_text = some Sample.decls.Column_Artist
    ∧ (FieldChanged Sample.decls (SmartPlaylistSearchTermWidget Sample.ui) 2).ui_.value_text = none
    ∧ (FieldChanged Sample.decls (SmartPlaylistSearchTermWidget Sample.ui) 0).ui_.value_text
        = some Sample.decls.Column_Album :=
  ⟨by decide, by decide, by decide,
    (C4_FieldChanged_completer Sample.decls (by decide) (by decide)
      (SmartPlaylistSearchTermWidget Sample.ui) 2).2.2.2 ⟨by decide, by decide⟩,
    (C4_FieldChanged_completer Sample.decls (by decide) (by decide)
      (SmartPlaylistSearchTermWidget Sample.ui) 0).2.1.2 (by decide)⟩

/-! ### The render step -/

theorem qMax_eq_max (a b : Int) : qMax a b = max a b := by
  unfold qMax
  split <;> omega

theorem snapshotOpacity_eq (o : Overlay) : Overlay.snapshotOpacity o = 1 / 4 + o.opacity_ / 4 := by
  unfold Overlay.snapshotOpacity
  norm_num
  ring

/-- C5: the render step draws the snapshot at blend factor `0.25 + 0.25 * opacity` and the
icon and the text at 1.0, whatever the overlay opacity.  The blend factor is non-decreasing
in the opacity, is 0.25 at opacity 0 and 0.50 at opacity 1, and lies in [0.25, 0.50] when
the opacity lies in [0, 1]. -/
theorem C5_snapshot_blend (o : Overlay) (width height textWidth fontHeight : Int) :
    (Overlay.paintEvent o width height textWidth fontHeight).calls
        = [(1, .fillRect (QRect.ofSize 0 0 width height)),
           (0.25 + 0.25 * o.opacity_, .drawSnapshot 0 0),
           (1, .drawIcon (Overlay.geometry width height textWidth fontHeight).icon),
           (1, .drawText (Overlay.geometry width height textWidth fontHeight).text
                 Overlay.text_)]
    ∧ (∀ o2 : Overlay, o.opacity_ ≤ o2.opacity_ →
        Overlay.snapshotOpacity o ≤ Overlay.snapshotOpacity o2)
    ∧ (∀ b : Bool, Overlay.snapshotOpacity ⟨0, b⟩ = 0.25)
    ∧ (∀ b : Bool, Overlay.snapshotOpacity ⟨1, b⟩ = 0.5)
    ∧ (0 ≤ o.opacity_ → o.opacity_ ≤ 1 →
        0.25 ≤ Overlay.snapshotOpacity o ∧ Overlay.snapshotOpacity o ≤ 0.5) := by
  refine ⟨?_, fun o2 h => ?_, fun b => ?_, fun b => ?_, fun h0 h1 => ?_⟩
  · simp only [Overlay.paintEvent, Overlay.QPainter.draw, Overlay.QPainter.setOpacity,
      Overlay.QPainter.begin, Overlay.snapshotOpacity, List.nil_append, List.cons_append]
    rw [mul_comm]
  · rw [snapshotOpacity_eq, snapshotOpacity_eq]
    linarith
  · rw [snapshotOpacity_eq]
    norm_num
  · rw [snapshotOpacity_eq]
    norm_num
  · rw [snapshotOpacity_eq]
    constructor <;> norm_num <;> linarith

/-- Witness of C5: at opacity 1/2 the snapshot is drawn at 3/8, between 0.25 and 0.50 and
below the factor at opacity 1. -/
theorem C5_snapshot_blend_witness :
    (0 : ℚ) ≤ 1 / 2 ∧ (1 / 2 : ℚ) ≤ 1
    ∧ (0.25 ≤ Overlay.snapshotOpacity ⟨1 / 2, true⟩
        ∧ Overlay.snapshotOpacity ⟨1 / 2, true⟩ ≤ 0.5)
    ∧ Overlay.snapshotOpacity ⟨1 / 2, true⟩ ≤ Overlay.snapshotOpacity ⟨1, true⟩ :=
  ⟨by norm_num, by norm_num,
    (C5_snapshot_blend ⟨1 / 2, true⟩ 200 40 100 16).2.2.2.2 (by norm_num) (by norm_num),
    (C5_snapshot_blend ⟨1 / 2, true⟩ 200 40 100 16).2.1 ⟨1, true⟩ (by norm_num)⟩

/-- C6: with `contentWidth = 22 + 6 + t` and `contentHeight = max(22, f)`, the content
block has its top-left corner at `((w - contentWidth) / 2, (h - contentHeight) / 2)`
(integer division) and size `contentWidth x contentHeight`.  When `w ≥ contentWidth` and
`h ≥ contentHeight` the block lies inside the overlay's rectangle, and the margins left and
right of it, and above and below it, differ by at most one pixel. -/
theorem C6_contents_centred (w h t f : Int) :
    (Overlay.geometry w h t f).contents.left = (w - (22 + 6 + t)).tdiv 2
    ∧ (Overlay.geometry w h t f).contents.top = (h - max 22 f).tdiv 2
    ∧ (Overlay.geometry w h t f).contents.width = 22 + 6 + t
    ∧ (Overlay.geometry w h t f).contents.height = max 22 f
    ∧ (22 + 6 + t ≤ w → max 22 f ≤ h →
        (QRect.ofSize 0 0 w h).left ≤ (Overlay.geometry w h t f).contents.left
        ∧ (Overlay.geometry w h t f).contents.right ≤ (QRect.ofSize 0 0 w h).right
        ∧ (QRect.ofSize 0 0 w h).top ≤ (Overlay.geometry w h t f).contents.top
        ∧ (Overlay.geometry w h t f).contents.bottom ≤ (QRect.ofSize 0 0 w h).bottom
        ∧ |((Overlay.geometry w h t f).contents.left - (QRect.ofSize 0 0 w h).left)
            - ((QRect.ofSize 0 0 w h).right - (Overlay.geometry w h t f).contents.right)| ≤ 1
        ∧ |((Overlay.geometry w h t f).contents.top - (QRect.ofSize 0 0 w h).top)
            - ((QRect.ofSize 0 0 w h).bottom
                - (Overlay.geometry w h t f).contents.bottom)| ≤ 1) := by
  simp only [Overlay.geometry, Overlay.kIconSize, Overlay.kSpacing, QRect.ofSize, QRect.left,
    QRect.top, QRect.right, QRect.bottom, QRect.width, QRect.height, qMax_eq_max]
  refine ⟨trivial, trivial, by omega, by omega, fun hw hh => ?_⟩
  rw [Int.tdiv_eq_ediv (by omega) (by omega), Int.tdiv_eq_ediv (by omega) (by omega)]
  rw [abs_le, abs_le]
  omega

/-- Witness of C6: a 200 x 40 overlay, text 100 wide, font 16 high: the 128 x 22 block
sits at (36, 9), with margins 36 | 36 and 9 | 9. -/
theorem C6_contents_centred_witness :
    (22 + 6 + 100 : Int) ≤ 200 ∧ max 22 (16 : Int) ≤ 40
    ∧ (Overlay.geometry 200 40 100 16).contents = ⟨36, 9, 163, 30⟩
    ∧ |((Overlay.geometry 200 40 100 16).contents.left - (QRect.ofSize 0 0 200 40).left)
        - ((QRect.ofSize 0 0 200 40).right
            - (Overlay.geometry 200 40 100 16).contents.right)| ≤ 1 :=
  ⟨by decide, by decide, by decide,
    ((C6_contents_centred 200 40 100 16).2.2.2.2 (by decide) (by decide)).2.2.2.2.1⟩

/-- An evaluation for C9 at a 200 x 40 overlay, text 100 wide, font 16 high.  The content
block starts at x = 36 and ends at x = 163.  The icon is the 22 x 22 square at the block's
top-left corner, and the text rectangle has the icon's top, width 100 and the block's
height; but its left edge is `icon.right() + kSpacing = 36 + 21 + 6 = 63`, one less than
`36 + kIconSize + kSpacing = 64`, and it ends at x = 162, one pixel before the block's
right edge. -/
theorem C9_text_rect_starts_one_pixel_early :
    (Overlay.geometry 200 40 100 16).contents.left = 36
    ∧ (Overlay.geometry 200 40 100 16).contents.right = 163
    ∧ (Overlay.geometry 200 40 100 16).icon = QRect.ofSize 36 9 22 22
    ∧ (Overlay.geometry 200 40 100 16).text.top = (Overlay.geometry 200 40 100 16).icon.top
    ∧ (Overlay.geometry 200 40 100 16).text.width = 100
    ∧ (Overlay.geometry 200 40 100 16).text.height
        = (Overlay.geometry 200 40 100 16).contents.height
    ∧ (Overlay.geometry 200 40 100 16).text.left = 63
    ∧ (Overlay.geometry 200 40 100 16).text.left
        ≠ (Overlay.geometry 200 40 100 16).contents.left + Overlay.kIconSize + Overlay.kSpacing
    ∧ (Overlay.geometry 200 40 100 16).text.right = 162
    ∧ (Overlay.geometry 200 40 100 16).text.right
        ≠ (Overlay.geometry 200 40 100 16).contents.right := by
  decide

/-! ### The hover animation -/

/-- C7: while an overlay is present, from any prior animation state a pointer-enter leaves
the animation running toward 1.0 over 80 ms and a pointer-leave leaves it running toward
0.0 over 160 ms.  The handler first stops the prior animation, whatever its progress, and
the new run starts from time 0; the result does not depend on the prior animation state,
so nothing is queued, and after any non-empty sequence of enter and leave events the
animation is the one of the last event alone. -/
theorem C7_hover_animation (w : Widget) (h : w.overlay_.isSome = true) :
    (w.animation_.stop).running = false
    ∧ (w.animation_.stop).currentTime = w.animation_.currentTime
    ∧ (enterEvent w).animation_ = (((w.animation_.stop).setEndValue 1).setDuration 80).start
    ∧ (leaveEvent w).animation_ = (((w.animation_.stop).setEndValue 0).setDuration 160).start
    ∧ (enterEvent w).animation_ = ⟨true, 0, some 1, 80⟩
    ∧ (leaveEvent w).animation_ = ⟨true, 0, some 0, 160⟩
    ∧ (∀ (prior : Animation) (e : Hover),
        (hover { w with animation_ := prior } e).animation_ = (hover w e).animation_)
    ∧ (∀ (es : List Hover) (e : Hover),
        ((es ++ [e]).foldl hover w).animation_ = (hover w e).animation_
        ∧ ((es ++ [e]).foldl hover w).animation_
            = match e with
              | .enter => ⟨true, 0, some 1, 80⟩
              | .leave => ⟨true, 0, some 0, 160⟩) := by
  refine ⟨rfl, rfl, ?_, ?_, hover_animation w .enter h, hover_animation w .leave h,
    fun prior e => ?_, fun es e => ?_⟩
  · cases hw : w.overlay_ with
    | none => simp [hw] at h
    | some o => simp [enterEvent, hw]
  · cases hw : w.overlay_ with
    | none => simp [hw] at h
    | some o => simp [leaveEvent, hw]
  · rw [hover_animation _ e (by simpa using h), hover_animation w e h]
  · have h2 : (es.foldl hover w).overlay_.isSome = true := by
      rw [foldl_hover_overlay]
      exact h
    rw [List.foldl_append, List.foldl_cons, List.foldl_nil, hover_animation _ e h2,
      hover_animation w e h]
    cases e <;> exact ⟨rfl, rfl⟩

/-- Witness of C7: on the sample row 50 ms into an enter fade, a pointer-leave stops that
run and starts the fade toward 0.0 over 160 ms from time 0; the same holds at the end of
enter, leave, enter, leave. -/
theorem C7_hover_animation_witness :
    Sample.midFade.overlay_.isSome = true
    ∧ Sample.midFade.animation_ = ⟨true, 50, some 1, 80⟩
    ∧ (leaveEvent Sample.midFade).animation_ = ⟨true, 0, some 0, 160⟩
    ∧ ((([Hover.enter, Hover.leave, Hover.enter] ++ [Hover.leave]).foldl hover
          Sample.midFade).animation_ : Animation) = ⟨true, 0, some 0, 160⟩ :=
  ⟨by decide, rfl, (C7_hover_animation Sample.midFade (by decide)).2.2.2.2.2.1,
    ((C7_hover_animation Sample.midFade (by decide)).2.2.2.2.2.2.2
      [Hover.enter, Hover.leave, Hover.enter] Hover.leave).2⟩

/-! ### The stored opacity -/

/-- Counterexample to C8: `SetOpacity(2.0)` on a new overlay stores 2.0, which the getters
return and which is not in [0, 1]. -/
theorem C8_opacity_unbounded_counterexample :
    (Overlay.SetOpacity Overlay.Overlay 2).opacity = 2
    ∧ overlay_opacity (set_overlay_opacity Sample.inactive 2) = 2
    ∧ ¬ (0 ≤ (Overlay.SetOpacity Overlay.Overlay 2).opacity
          ∧ (Overlay.SetOpacity Overlay.Overlay 2).opacity ≤ 1) := by
  refine ⟨rfl, rfl, ?_⟩
  simp [Overlay.SetOpacity, Overlay.opacity]

/-- C8 as amended: the opacity of a constructed overlay is 0.0; `SetOpacity(x)`, and
`set_overlay_opacity(x)` while an overlay exists, store `x` unchanged, and `opacity()` and
`overlay_opacity()` return it; so the stored opacity lies in [0, 1] exactly when `x`
does. -/
theorem C8_opacity_stored_as_given (w : Widget) (o : Overlay) (x : ℚ)
    (h : w.overlay_ = some o) :
    Overlay.opacity Overlay.Overlay = 0
    ∧ (Overlay.SetOpacity o x).opacity = x
    ∧ overlay_opacity (set_overlay_opacity w x) = x
    ∧ ((0 ≤ overlay_opacity (set_overlay_opacity w x)
          ∧ overlay_opacity (set_overlay_opacity w x) ≤ 1) ↔ (0 ≤ x ∧ x ≤ 1)) := by
  have h3 : overlay_opacity (set_overlay_opacity w x) = x := by
    simp [overlay_opacity, set_overlay_opacity, h, Overlay.SetOpacity, Overlay.opacity]
  refine ⟨rfl, rfl, h3, ?_⟩
  rw [h3]

/-- Witness of C8 as amended: on the sample inactive row, setting the opacity to 3/4
stores 3/4. -/
theorem C8_opacity_stored_as_given_witness :
    Sample.inactive.overlay_ = some Overlay.Overlay
    ∧ overlay_opacity (set_overlay_opacity Sample.inactive (3 / 4)) = 3 / 4 :=
  ⟨rfl, (C8_opacity_stored_as_given Sample.inactive Overlay.Overlay (3 / 4) rfl).2.2.1⟩

/-! ### The deferred snapshot -/

/-- An evaluation for C10: from the constructed editor, `SetActive(false)`, a show event
and `SetActive(true)` leave one `Grab()` callback pending and no overlay; when the callback
fires, `Grab()` dereferences the null `overlay_`. -/
theorem C10_Grab_fires_without_overlay :
    (run (SmartPlaylistSearchTermWidget Sample.ui)
        [.setActive false, .show, .setActive true]).map
          (fun w => (w.overlay_.isSome, w.pendingGrab)) = some (false, 1)
    ∧ (run (SmartPlaylistSearchTermWidget Sample.ui)
        [.setActive false, .show, .setActive true, .fireGrab]).isNone = true := by
  decide

end SmartPlaylistSearchTermWidget
